import Mathlib

/-!
Verification of the deployment pipeline of the `sveltekit-aws-adapter`
package against its design document.

The development shallowly embeds the relevant parts of the source:

* `setupCloudFrontTrigger` (the edge trigger binder, `dist/aws.js`):
  the two reads of the distribution configuration, the schema check,
  the replace-by-event-type merge of the association list, and the
  conditional update command it submits.
* `adapt` (the pipeline driver, `src/index.ts`): the order of the
  external stage invocations and the error flow between them.
* `uploadToS3` (the asset publisher, `dist/aws.js`): the recursive
  walk with per-file error capture.
* `deepMerge` and `defaultConfig` (`src/index.ts`): the generic
  configuration merge over JavaScript-style values.

External services are modelled by environments that fix the responses
the code would receive; the commands the code sends are returned
explicitly so that claims about "no write happened" or "the write was
conditioned on token T" are statements about the returned data.
-/

namespace SvelteAws

/-- One CloudFront trigger association, as in the distribution
configuration: `{EventType, LambdaFunctionARN}`. -/
structure LambdaFunctionAssociation where
  EventType : String
  LambdaFunctionARN : String
deriving DecidableEq, Repr

/-- The `LambdaFunctionAssociations` block of a cache behavior:
`{Quantity, Items}`, with `Items` possibly absent as in the SDK type. -/
structure LambdaFunctionAssociations where
  Quantity : Nat
  Items : Option (List LambdaFunctionAssociation)
deriving DecidableEq, Repr

/-- The part of `DefaultCacheBehavior` read and written by
`setupCloudFrontTrigger`: its (possibly absent) association block. -/
structure DefaultCacheBehavior where
  LambdaFunctionAssociations : Option LambdaFunctionAssociations
deriving DecidableEq, Repr

/-- The part of the distribution configuration the trigger binder
touches: the (possibly absent) default cache behavior. -/
structure DistributionConfig where
  DefaultCacheBehavior : Option DefaultCacheBehavior
deriving DecidableEq, Repr

/-- A response to `GetDistributionConfigCommand`: the configuration and
the concurrency token (`ETag`), each possibly absent. -/
structure GetDistConfigResponse where
  DistributionConfig : Option DistributionConfig
  ETag : Option String
deriving DecidableEq, Repr

/-- The `UpdateDistributionCommand` payload built by
`setupCloudFrontTrigger`: distribution id, new configuration, and the
`IfMatch` concurrency token. -/
structure UpdateDistributionCommand where
  Id : String
  DistributionConfig : DistributionConfig
  IfMatch : Option String
deriving DecidableEq, Repr

/-- Environment for one run of `setupCloudFrontTrigger`: the response
to the first `GetDistributionConfigCommand` send, the response to the
second send (the code sends the same command object twice, and the
distribution may have changed in between), and the `FunctionArn`
returned by `GetFunctionConfigurationCommand`. The source interpolates
`FunctionArn` into a template string; it is modelled as the string the
service returned. -/
structure CloudFrontEnv where
  fetch1 : GetDistConfigResponse
  fetch2 : GetDistConfigResponse
  functionArn : String
deriving DecidableEq, Repr

/-- `setupCloudFrontTrigger(functionName, functionVersion,
distributionId, region)` from `dist/aws.js`, lines 91-136.  The first
component of the result lists the `UpdateDistributionCommand` sends the
run issued (in order); the second is the error it threw, if any.  The
schema check throws before any update is sent; on the success path the
new association replaces every existing `origin-request` association
and the update is conditioned on the ETag of the second fetch. -/
def setupCloudFrontTrigger (functionVersion distributionId : String)
    (env : CloudFrontEnv) : List UpdateDistributionCommand × Option String :=
  match env.fetch1.DistributionConfig with
  | none => ([], some "Missing DistributionConfig or DefaultCacheBehavior")
  | some dc =>
    match dc.DefaultCacheBehavior with
    | none => ([], some "Missing DistributionConfig or DefaultCacheBehavior")
    | some dcb =>
      let lambdaFunctionArn := env.functionArn ++ ":" ++ functionVersion
      let newAssociation : LambdaFunctionAssociation :=
        { EventType := "origin-request", LambdaFunctionARN := lambdaFunctionArn }
      let existingAssociations :=
        ((dcb.LambdaFunctionAssociations.bind fun l => l.Items).getD [])
      let updatedAssociations :=
        (existingAssociations.filter fun association =>
          association.EventType != "origin-request") ++ [newAssociation]
      let updatedLambdaFunctionAssociations : LambdaFunctionAssociations :=
        { Quantity := updatedAssociations.length, Items := some updatedAssociations }
      let updatedBehavior : DefaultCacheBehavior :=
        { dcb with LambdaFunctionAssociations := some updatedLambdaFunctionAssociations }
      let updatedDistributionConfig : UpdateDistributionCommand :=
        { Id := distributionId,
          DistributionConfig := { dc with DefaultCacheBehavior := some updatedBehavior },
          IfMatch := env.fetch2.ETag }
      ([updatedDistributionConfig], none)

/-- The association list stored in a cache behavior, with the same
`?.Items || []` defaulting the source applies when reading it. -/
def DefaultCacheBehavior.assocItems (dcb : DefaultCacheBehavior) :
    List LambdaFunctionAssociation :=
  (dcb.LambdaFunctionAssociations.bind fun l => l.Items).getD []

/-- The association list carried by an update command (empty if any
layer is absent). -/
def UpdateDistributionCommand.assocItems (cmd : UpdateDistributionCommand) :
    List LambdaFunctionAssociation :=
  match cmd.DistributionConfig.DefaultCacheBehavior with
  | none => []
  | some dcb => dcb.assocItems

/-- Removing every association of event type `k` and then keeping only
event type `k` leaves nothing. -/
theorem filter_eq_of_filter_ne (k : String) (l : List LambdaFunctionAssociation) :
    (l.filter fun a => a.EventType != k).filter (fun a => a.EventType == k) = [] := by
  induction l with
  | nil => rfl
  | cons a t ih =>
    simp only [List.filter_cons]
    by_cases h : a.EventType = k
    · simp [h, ih]
    · simp [h, ih]

/-- Keeping event type `e` commutes with removing event type `k` when
`e ≠ k`. -/
theorem filter_other_of_filter_ne {k e : String} (hne : e ≠ k)
    (l : List LambdaFunctionAssociation) :
    (l.filter fun a => a.EventType != k).filter (fun a => a.EventType == e)
      = l.filter (fun a => a.EventType == e) := by
  induction l with
  | nil => rfl
  | cons a t ih =>
    simp only [List.filter_cons]
    by_cases h : a.EventType = k
    · have h2 : a.EventType ≠ e := fun he => hne (he ▸ h)
      simp [h, h2, ih, Ne.symm hne]
    · by_cases h2 : a.EventType = e
      · simp [h, h2, ih, hne]
      · simp [h, h2, ih, hne]

/-- Removing event type `k` twice is the same as removing it once. -/
theorem filter_ne_idem (k : String) (l : List LambdaFunctionAssociation) :
    (l.filter fun a => a.EventType != k).filter (fun a => a.EventType != k)
      = l.filter fun a => a.EventType != k := by
  induction l with
  | nil => rfl
  | cons a t ih =>
    simp only [List.filter_cons]
    by_cases h : a.EventType = k
    · simp [h, ih]
    · simp [h, ih]

/-- Appending a fixed string on the left is injective. -/
theorem string_append_cancel {s t u : String} (h : s ++ t = s ++ u) : t = u := by
  have hd : s.data ++ t.data = s.data ++ u.data := by
    have h2 := congrArg String.data h
    simpa [String.data_append] using h2
  exact String.ext (List.append_cancel_left hd)

/-- C1: for a fetched configuration with the default cache behavior
present and at most one pre-existing `origin-request` association,
`setupCloudFrontTrigger` succeeds, and the association list it writes
holds exactly one `origin-request` entry — the fetched function ARN
suffixed with `:` and the given version — while the associations of
every other event type are unchanged. -/
theorem setupCloudFrontTrigger_replace_by_key
    (fv dist : String) (env : CloudFrontEnv) (dc : DistributionConfig)
    (dcb : DefaultCacheBehavior)
    (h1 : env.fetch1.DistributionConfig = some dc)
    (h2 : dc.DefaultCacheBehavior = some dcb)
    (h3 : (dcb.assocItems.filter fun a => a.EventType == "origin-request").length ≤ 1) :
    ∃ cmd, setupCloudFrontTrigger fv dist env = ([cmd], none) ∧
      cmd.assocItems.filter (fun a => a.EventType == "origin-request")
        = [{ EventType := "origin-request",
             LambdaFunctionARN := env.functionArn ++ ":" ++ fv }] ∧
      ∀ e : String, e ≠ "origin-request" →
        cmd.assocItems.filter (fun a => a.EventType == e)
          = dcb.assocItems.filter (fun a => a.EventType == e) := by
  simp only [setupCloudFrontTrigger, h1, h2]
  refine ⟨_, rfl, ?_, ?_⟩
  · simp [UpdateDistributionCommand.assocItems, DefaultCacheBehavior.assocItems,
      List.filter_append, filter_eq_of_filter_ne]
  · intro e he
    simp [UpdateDistributionCommand.assocItems, DefaultCacheBehavior.assocItems,
      List.filter_append, filter_other_of_filter_ne he, Ne.symm he]

/-- Pre-existing `origin-request` association used by the witnesses. -/
def assocOldOr : LambdaFunctionAssociation :=
  { EventType := "origin-request", LambdaFunctionARN := "arn:old:3" }

/-- Pre-existing `viewer-request` association used by the witnesses. -/
def assocViewer : LambdaFunctionAssociation :=
  { EventType := "viewer-request", LambdaFunctionARN := "arn:viewer:5" }

/-- Concrete default cache behavior used by the witnesses. -/
def dcbW : DefaultCacheBehavior :=
  { LambdaFunctionAssociations := some { Quantity := 2, Items := some [assocViewer, assocOldOr] } }

/-- Concrete distribution configuration used by the witnesses. -/
def dcW : DistributionConfig := { DefaultCacheBehavior := some dcbW }

/-- Concrete environment used by the witnesses: both fetches see the
same configuration but return different concurrency tokens. -/
def envW : CloudFrontEnv :=
  { fetch1 := { DistributionConfig := some dcW, ETag := some "E1" },
    fetch2 := { DistributionConfig := some dcW, ETag := some "E2" },
    functionArn := "arn:fn" }

/-- Witness for C1 at a distribution holding one `viewer-request` and
one `origin-request` association. -/
theorem setupCloudFrontTrigger_replace_by_key_witness :
    (envW.fetch1.DistributionConfig = some dcW ∧ dcW.DefaultCacheBehavior = some dcbW ∧
      (dcbW.assocItems.filter fun a => a.EventType == "origin-request").length ≤ 1) ∧
    (∃ cmd, setupCloudFrontTrigger "7" "DIST" envW = ([cmd], none) ∧
      cmd.assocItems.filter (fun a => a.EventType == "origin-request")
        = [{ EventType := "origin-request",
             LambdaFunctionARN := envW.functionArn ++ ":" ++ "7" }] ∧
      ∀ e : String, e ≠ "origin-request" →
        cmd.assocItems.filter (fun a => a.EventType == e)
          = dcbW.assocItems.filter (fun a => a.EventType == e)) :=
  ⟨⟨rfl, rfl, by decide⟩,
    setupCloudFrontTrigger_replace_by_key "7" "DIST" envW dcW dcbW rfl rfl (by decide)⟩

/-- C3: when the fetched response lacks the `DistributionConfig` or its
`DefaultCacheBehavior`, `setupCloudFrontTrigger` throws the schema
error and sends no `UpdateDistributionCommand`, so the distribution is
left unchanged. -/
theorem setupCloudFrontTrigger_schema_error
    (fv dist : String) (env : CloudFrontEnv)
    (h : env.fetch1.DistributionConfig = none ∨
         ∃ dc, env.fetch1.DistributionConfig = some dc ∧ dc.DefaultCacheBehavior = none) :
    setupCloudFrontTrigger fv dist env
      = ([], some "Missing DistributionConfig or DefaultCacheBehavior") := by
  rcases h with h | ⟨dc, h1, h2⟩
  · simp [setupCloudFrontTrigger, h]
  · simp [setupCloudFrontTrigger, h1, h2]

/-- Witness for C3 at a response with no configuration at all. -/
theorem setupCloudFrontTrigger_schema_error_witness :
    ((⟨⟨none, none⟩, ⟨none, none⟩, "arn:fn"⟩ : CloudFrontEnv).fetch1.DistributionConfig = none ∨
      ∃ dc, (⟨⟨none, none⟩, ⟨none, none⟩, "arn:fn"⟩ : CloudFrontEnv).fetch1.DistributionConfig
          = some dc ∧ dc.DefaultCacheBehavior = none) ∧
    setupCloudFrontTrigger "7" "DIST" ⟨⟨none, none⟩, ⟨none, none⟩, "arn:fn"⟩
      = ([], some "Missing DistributionConfig or DefaultCacheBehavior") :=
  ⟨Or.inl rfl,
    setupCloudFrontTrigger_schema_error "7" "DIST" ⟨⟨none, none⟩, ⟨none, none⟩, "arn:fn"⟩
      (Or.inl rfl)⟩

/-- C4: on the success path the single update command is conditioned on
the ETag returned by the second fetch of the distribution
configuration, performed just before the write — when the two fetches
return different tokens, the command's token is the second one, not
the first. -/
theorem setupCloudFrontTrigger_uses_second_token
    (fv dist : String) (env : CloudFrontEnv) (dc : DistributionConfig)
    (dcb : DefaultCacheBehavior)
    (h1 : env.fetch1.DistributionConfig = some dc)
    (h2 : dc.DefaultCacheBehavior = some dcb) :
    ∃ cmd, setupCloudFrontTrigger fv dist env = ([cmd], none) ∧
      cmd.IfMatch = env.fetch2.ETag ∧
      (env.fetch1.ETag ≠ env.fetch2.ETag → cmd.IfMatch ≠ env.fetch1.ETag) := by
  simp only [setupCloudFrontTrigger, h1, h2]
  exact ⟨_, rfl, rfl, fun hne h => hne (h ▸ rfl)⟩

/-- Witness for C4 at an environment whose two fetches return the
distinct tokens `E1` and `E2`. -/
theorem setupCloudFrontTrigger_uses_second_token_witness :
    (envW.fetch1.DistributionConfig = some dcW ∧ dcW.DefaultCacheBehavior = some dcbW) ∧
    (∃ cmd, setupCloudFrontTrigger "7" "DIST" envW = ([cmd], none) ∧
      cmd.IfMatch = envW.fetch2.ETag ∧
      (envW.fetch1.ETag ≠ envW.fetch2.ETag → cmd.IfMatch ≠ envW.fetch1.ETag)) :=
  ⟨⟨rfl, rfl⟩, setupCloudFrontTrigger_uses_second_token "7" "DIST" envW dcW dcbW rfl rfl⟩

/-- C2: running `setupCloudFrontTrigger` twice in succession — the
second run fetching the configuration the first run wrote — with two
different versions leaves only the second version's `origin-request`
association; the first run's association does not accumulate. -/
theorem setupCloudFrontTrigger_no_accumulation
    (v1 v2 dist : String) (env env2 : CloudFrontEnv) (dc : DistributionConfig)
    (dcb : DefaultCacheBehavior) (cmd1 : UpdateDistributionCommand)
    (hv : v1 ≠ v2)
    (h1 : env.fetch1.DistributionConfig = some dc)
    (h2 : dc.DefaultCacheBehavior = some dcb)
    (hrun1 : setupCloudFrontTrigger v1 dist env = ([cmd1], none))
    (h21 : env2.fetch1.DistributionConfig = some cmd1.DistributionConfig)
    (harn : env2.functionArn = env.functionArn) :
    ∃ cmd2, setupCloudFrontTrigger v2 dist env2 = ([cmd2], none) ∧
      (cmd2.assocItems.filter fun a => a.EventType == "origin-request")
        = [{ EventType := "origin-request",
             LambdaFunctionARN := env.functionArn ++ ":" ++ v2 }] ∧
      ({ EventType := "origin-request",
         LambdaFunctionARN := env.functionArn ++ ":" ++ v1 } : LambdaFunctionAssociation)
        ∉ cmd2.assocItems := by
  simp only [setupCloudFrontTrigger, h1, h2] at hrun1
  simp only [Prod.mk.injEq, List.cons.injEq, and_true] at hrun1
  subst hrun1
  simp only [setupCloudFrontTrigger, h21, harn]
  refine ⟨_, rfl, ?_, ?_⟩
  · simp [UpdateDistributionCommand.assocItems, DefaultCacheBehavior.assocItems,
      List.filter_append, filter_eq_of_filter_ne]
  · intro hmem
    simp only [UpdateDistributionCommand.assocItems, DefaultCacheBehavior.assocItems,
      Option.bind_some, Option.getD_some] at hmem
    rcases List.mem_append.mp hmem with hmem | hmem
    · have hprop := (List.mem_filter.mp hmem).2
      simp at hprop
    · rw [List.mem_singleton] at hmem
      have harnEq := congrArg LambdaFunctionAssociation.LambdaFunctionARN hmem
      exact hv (string_append_cancel harnEq)

/-- The command written by a first run of the trigger binder with
version `1` against `envW`, used by the C2 witness. -/
def cmd1W : UpdateDistributionCommand :=
  (setupCloudFrontTrigger "1" "DIST" envW).1.headD
    { Id := "", DistributionConfig := { DefaultCacheBehavior := none }, IfMatch := none }

/-- Environment of the second run for the C2 witness: it fetches the
configuration the first run wrote. -/
def env2W : CloudFrontEnv :=
  { fetch1 := { DistributionConfig := some cmd1W.DistributionConfig, ETag := some "E3" },
    fetch2 := { DistributionConfig := some cmd1W.DistributionConfig, ETag := some "E4" },
    functionArn := "arn:fn" }

/-- Witness for C2: versions `1` then `2` against the concrete
distribution of `envW`. -/
theorem setupCloudFrontTrigger_no_accumulation_witness :
    (("1" : String) ≠ "2" ∧ envW.fetch1.DistributionConfig = some dcW ∧
      dcW.DefaultCacheBehavior = some dcbW ∧
      setupCloudFrontTrigger "1" "DIST" envW = ([cmd1W], none) ∧
      env2W.fetch1.DistributionConfig = some cmd1W.DistributionConfig ∧
      env2W.functionArn = envW.functionArn) ∧
    (∃ cmd2, setupCloudFrontTrigger "2" "DIST" env2W = ([cmd2], none) ∧
      (cmd2.assocItems.filter fun a => a.EventType == "origin-request")
        = [{ EventType := "origin-request",
             LambdaFunctionARN := envW.functionArn ++ ":" ++ "2" }] ∧
      ({ EventType := "origin-request",
         LambdaFunctionARN := envW.functionArn ++ ":" ++ "1" } : LambdaFunctionAssociation)
        ∉ cmd2.assocItems) :=
  ⟨⟨by decide, rfl, rfl, rfl, rfl, rfl⟩,
    setupCloudFrontTrigger_no_accumulation "1" "2" "DIST" envW env2W dcW dcbW cmd1W
      (by decide) rfl rfl rfl rfl rfl⟩

/-- `S3Config` from `src/index.ts`.  The source field `prefix` is a
Lean keyword and is rendered `pfx`. -/
structure S3Config where
  bucketName : String
  pfx : String
  region : String
deriving DecidableEq, Repr

/-- `LambdaConfig` from `src/index.ts`. -/
structure LambdaConfig where
  functionName : String
  region : String
deriving DecidableEq, Repr

/-- `CloudFrontConfig` from `src/index.ts`. -/
structure CloudFrontConfig where
  distributionId : String
  region : String
deriving DecidableEq, Repr

/-- `AWSConfiguration` from `src/index.ts`. -/
structure AWSConfiguration where
  s3 : S3Config
  lambda : LambdaConfig
  cloudfront : CloudFrontConfig
deriving DecidableEq, Repr

/-- One external stage invocation made by `adapt`, with the arguments
the source passes. -/
inductive StageEvent where
  | bundleApp : StageEvent
  | uploadToS3 (directoryPath bucketName s3Pfx region : String) : StageEvent
  | zipDirectory (source out : String) : StageEvent
  | deployLambdaFunction (functionName zipFilePath region : String) : StageEvent
  | setupCloudFrontTrigger (functionName functionVersion distributionId region : String) : StageEvent
  | invalidateCache (distributionId : String) (paths : List String) (region : String) : StageEvent
deriving DecidableEq, Repr

/-- Whether a stage event is an archive-creation (`zipDirectory`)
call. -/
def StageEvent.isZip : StageEvent → Bool
  | .zipDirectory _ _ => true
  | _ => false

/-- Whether a stage event is a trigger-binding
(`setupCloudFrontTrigger`) call. -/
def StageEvent.isTrigger : StageEvent → Bool
  | .setupCloudFrontTrigger _ _ _ _ => true
  | _ => false

/-- Outcomes of the awaited stages for one run of `adapt`: whether
`bundleApp` and `uploadToS3` resolve, how `zipDirectory` settles, what
`deployLambdaFunction` resolves to (a version string, `undefined`, or
a rejection), and whether `setupCloudFrontTrigger` resolves. -/
structure AdaptEnv where
  bundleOk : Bool
  uploadOk : Bool
  zipResult : Except String Unit
  deployOutcome : Except String (Option String)
  triggerOk : Bool

/-- Result of one `adapt` run: the external stage calls in the order
they were started, the console messages of the zip step, and the error
the run rejected with, if any. -/
structure AdaptResult where
  events : List StageEvent
  logs : List String
  error : Option String
deriving Repr

/-- The `adapt` method of the adapter object (`src/index.ts`, lines
154-199), applied to an already-merged configuration.  The local
builder steps (rimraf, writeClient, writePrerendered, writeServer,
copy, writeFileSync) are elided; the awaited external stages are
recorded in order.  The `zipDirectory(...)` call is followed by
`.then(...).catch(error => console.error(...))`, so its rejection is
converted into a log line and never propagates — the deployment
continues regardless of the zip outcome.  `setupCloudFrontTrigger` is
invoked only when the deployed version is not `undefined`;
`invalidateCache` is always invoked for the path list `["/*"]` once
the preceding awaited calls have resolved. -/
def adapt (config : AWSConfiguration) (env : AdaptEnv) : AdaptResult :=
  if !env.bundleOk then
    { events := [.bundleApp], logs := [], error := some "bundle failed" }
  else
    let e1 : List StageEvent :=
      [.bundleApp, .uploadToS3 "out/client" config.s3.bucketName config.s3.pfx config.s3.region]
    if !env.uploadOk then { events := e1, logs := [], error := some "upload failed" }
    else
      let e2 := e1 ++ [.zipDirectory "build" "build/lambda.zip"]
      let zipLog :=
        match env.zipResult with
        | .ok _ => "Directory successfully zipped!"
        | .error _ => "Failed to zip directory:"
      match env.deployOutcome with
      | .error msg =>
        { events := e2 ++ [.deployLambdaFunction config.lambda.functionName
            "build/lambda.zip" config.lambda.region],
          logs := [zipLog], error := some msg }
      | .ok lambdaVersion =>
        let e3 := e2 ++ [.deployLambdaFunction config.lambda.functionName
          "build/lambda.zip" config.lambda.region]
        match lambdaVersion with
        | none =>
          { events := e3 ++ [.invalidateCache config.cloudfront.distributionId ["/*"]
              config.cloudfront.region],
            logs := [zipLog], error := none }
        | some v =>
          let e4 := e3 ++ [.setupCloudFrontTrigger config.lambda.functionName v
            config.cloudfront.distributionId config.cloudfront.region]
          if !env.triggerOk then { events := e4, logs := [zipLog], error := some "trigger failed" }
          else
            { events := e4 ++ [.invalidateCache config.cloudfront.distributionId ["/*"]
                config.cloudfront.region],
              logs := [zipLog], error := none }

/-- Concrete configuration used by the pipeline witnesses. -/
def cfgW : AWSConfiguration :=
  { s3 := { bucketName := "bkt", pfx := "assets", region := "ap-south-1" },
    lambda := { functionName := "fn", region := "us-east-1" },
    cloudfront := { distributionId := "DIST", region := "us-east-1" } }

/-- Environment in which every stage succeeds and the deploy publishes
version `7`. -/
def envAllOk : AdaptEnv :=
  { bundleOk := true, uploadOk := true, zipResult := .ok (),
    deployOutcome := .ok (some "7"), triggerOk := true }

/-- Environment in which only the zip step fails. -/
def envZipFail : AdaptEnv :=
  { bundleOk := true, uploadOk := true, zipResult := .error "ENOENT",
    deployOutcome := .ok (some "7"), triggerOk := true }

/-- Environment in which the deploy resolves with an `undefined`
version. -/
def envNoVersion : AdaptEnv :=
  { bundleOk := true, uploadOk := true, zipResult := .ok (),
    deployOutcome := .ok none, triggerOk := true }

/-- C5 counterexample: in a fully successful run the asset upload
(`uploadToS3`, position 1) starts before the archive creation
(`zipDirectory`, position 2); no zip call precedes the upload, so the
archive is not created before the asset upload starts — the claimed
Packager-before-Asset-Publisher order does not hold. -/
theorem adapt_upload_before_zip_counterexample :
    (adapt cfgW envAllOk).events[1]?
        = some (StageEvent.uploadToS3 "out/client" "bkt" "assets" "ap-south-1") ∧
    (adapt cfgW envAllOk).events[2]?
        = some (StageEvent.zipDirectory "build" "build/lambda.zip") ∧
    ((adapt cfgW envAllOk).events.take 2).all (fun e => ! e.isZip) = true :=
  ⟨rfl, rfl, rfl⟩

/-- C5 amended: in a run where every stage succeeds and the deploy
publishes a version, the external stages start strictly in the order
asset upload, archive creation, function deploy, trigger binding,
cache invalidation, each awaited before the next begins. -/
theorem adapt_stage_order (config : AWSConfiguration) (env : AdaptEnv) (v : String)
    (hb : env.bundleOk = true) (hu : env.uploadOk = true)
    (hd : env.deployOutcome = .ok (some v)) (ht : env.triggerOk = true) :
    (adapt config env).events
      = [StageEvent.bundleApp,
         StageEvent.uploadToS3 "out/client" config.s3.bucketName config.s3.pfx config.s3.region,
         StageEvent.zipDirectory "build" "build/lambda.zip",
         StageEvent.deployLambdaFunction config.lambda.functionName "build/lambda.zip"
           config.lambda.region,
         StageEvent.setupCloudFrontTrigger config.lambda.functionName v
           config.cloudfront.distributionId config.cloudfront.region,
         StageEvent.invalidateCache config.cloudfront.distributionId ["/*"]
           config.cloudfront.region] ∧
    (adapt config env).error = none := by
  simp [adapt, hb, hu, hd, ht]

/-- Witness for the amended C5 at the concrete configuration and the
all-success environment. -/
theorem adapt_stage_order_witness :
    (envAllOk.bundleOk = true ∧ envAllOk.uploadOk = true ∧
      envAllOk.deployOutcome = .ok (some "7") ∧ envAllOk.triggerOk = true) ∧
    ((adapt cfgW envAllOk).events
      = [StageEvent.bundleApp,
         StageEvent.uploadToS3 "out/client" cfgW.s3.bucketName cfgW.s3.pfx cfgW.s3.region,
         StageEvent.zipDirectory "build" "build/lambda.zip",
         StageEvent.deployLambdaFunction cfgW.lambda.functionName "build/lambda.zip"
           cfgW.lambda.region,
         StageEvent.setupCloudFrontTrigger cfgW.lambda.functionName "7"
           cfgW.cloudfront.distributionId cfgW.cloudfront.region,
         StageEvent.invalidateCache cfgW.cloudfront.distributionId ["/*"]
           cfgW.cloudfront.region] ∧
      (adapt cfgW envAllOk).error = none) :=
  ⟨⟨rfl, rfl, rfl, rfl⟩, adapt_stage_order cfgW envAllOk "7" rfl rfl rfl rfl⟩

/-- C6 counterexample: when the zip step fails, the failure is only
logged (`Failed to zip directory:`), the run still invokes
`deployLambdaFunction` and `setupCloudFrontTrigger`, and it completes
without error — a packaging failure does not abort the pipeline. -/
theorem adapt_zip_failure_counterexample :
    (adapt cfgW envZipFail).logs = ["Failed to zip directory:"] ∧
    (adapt cfgW envZipFail).events[3]?
      = some (StageEvent.deployLambdaFunction "fn" "build/lambda.zip" "us-east-1") ∧
    (adapt cfgW envZipFail).events[4]?
      = some (StageEvent.setupCloudFrontTrigger "fn" "7" "DIST" "us-east-1") ∧
    (adapt cfgW envZipFail).error = none :=
  ⟨rfl, rfl, rfl, rfl⟩

/-- C6 amended: a failure of the archive-creation step is caught by
the `.catch` at the call site — it is logged and the run proceeds to
invoke `deployLambdaFunction` anyway (as the fourth stage call),
whatever the deploy and trigger outcomes are. -/
theorem adapt_zip_failure_logged_and_continues
    (config : AWSConfiguration) (env : AdaptEnv) (msg : String)
    (hb : env.bundleOk = true) (hu : env.uploadOk = true)
    (hz : env.zipResult = .error msg) :
    (adapt config env).logs = ["Failed to zip directory:"] ∧
    (adapt config env).events[3]?
      = some (StageEvent.deployLambdaFunction config.lambda.functionName
          "build/lambda.zip" config.lambda.region) := by
  rcases hdo : env.deployOutcome with msg2 | v
  · simp [adapt, hb, hu, hz, hdo]
  · rcases v with _ | ver
    · simp [adapt, hb, hu, hz, hdo]
    · cases htr : env.triggerOk <;> simp [adapt, hb, hu, hz, hdo, htr]

/-- Witness for the amended C6 at the concrete configuration and the
zip-failure environment. -/
theorem adapt_zip_failure_logged_and_continues_witness :
    (envZipFail.bundleOk = true ∧ envZipFail.uploadOk = true ∧
      envZipFail.zipResult = .error "ENOENT") ∧
    ((adapt cfgW envZipFail).logs = ["Failed to zip directory:"] ∧
      (adapt cfgW envZipFail).events[3]?
        = some (StageEvent.deployLambdaFunction cfgW.lambda.functionName
            "build/lambda.zip" cfgW.lambda.region)) :=
  ⟨⟨rfl, rfl, rfl⟩, adapt_zip_failure_logged_and_continues cfgW envZipFail "ENOENT" rfl rfl rfl⟩

/-- C9: when the deploy resolves with an `undefined` version, the
trigger binder is skipped entirely — no `setupCloudFrontTrigger` call
occurs — yet `invalidateCache` is still invoked for `["/*"]` on the
distribution, and the run completes without error. -/
theorem adapt_skips_trigger_on_undefined_version
    (config : AWSConfiguration) (env : AdaptEnv)
    (hb : env.bundleOk = true) (hu : env.uploadOk = true)
    (hd : env.deployOutcome = .ok none) :
    (adapt config env).events
      = [StageEvent.bundleApp,
         StageEvent.uploadToS3 "out/client" config.s3.bucketName config.s3.pfx config.s3.region,
         StageEvent.zipDirectory "build" "build/lambda.zip",
         StageEvent.deployLambdaFunction config.lambda.functionName "build/lambda.zip"
           config.lambda.region,
         StageEvent.invalidateCache config.cloudfront.distributionId ["/*"]
           config.cloudfront.region] ∧
    ((adapt config env).events.all fun e => ! e.isTrigger) = true ∧
    (adapt config env).error = none := by
  refine ⟨?_, ?_, ?_⟩ <;> simp [adapt, hb, hu, hd, StageEvent.isTrigger]

/-- Witness for C9 at the concrete configuration and the
undefined-version environment. -/
theorem adapt_skips_trigger_on_undefined_version_witness :
    (envNoVersion.bundleOk = true ∧ envNoVersion.uploadOk = true ∧
      envNoVersion.deployOutcome = .ok none) ∧
    ((adapt cfgW envNoVersion).events
      = [StageEvent.bundleApp,
         StageEvent.uploadToS3 "out/client" cfgW.s3.bucketName cfgW.s3.pfx cfgW.s3.region,
         StageEvent.zipDirectory "build" "build/lambda.zip",
         StageEvent.deployLambdaFunction cfgW.lambda.functionName "build/lambda.zip"
           cfgW.lambda.region,
         StageEvent.invalidateCache cfgW.cloudfront.distributionId ["/*"]
           cfgW.cloudfront.region] ∧
      ((adapt cfgW envNoVersion).events.all fun e => ! e.isTrigger) = true ∧
      (adapt cfgW envNoVersion).error = none) :=
  ⟨⟨rfl, rfl, rfl⟩, adapt_skips_trigger_on_undefined_version cfgW envNoVersion rfl rfl rfl⟩

/-- A directory entry as seen by the `uploadToS3` walk: a regular file
or a sub-directory with its entries (in `readdirSync` order). -/
inductive FsEntry where
  | file (name : String) : FsEntry
  | dir (name : String) (entries : List FsEntry) : FsEntry

/-- The key-root computation at the top of `uploadToS3`:
`s3Prefix && s3Prefix.length > 0 ? s3Prefix + "/" : ""`. -/
def addSlash (s3Pfx : String) : String :=
  if s3Pfx.length > 0 then s3Pfx ++ "/" else ""

/-- The body of the `uploadToS3` loop (`dist/aws.js`, lines 19-42),
with the entry computation `addSlash` already applied to produce
`pfx`.  For a regular file the object key is `pfx` followed by the
path of the file relative to the directory (its name), and the `PUT`
is attempted inside a `try`/`catch` whose `catch` only logs — the
oracle gives the outcome of each attempted `PUT`, recorded in the
result.  For a sub-directory the source recurses with the new key
root `pfx + item`, which the recursive call's own entry computation
turns into `pfx + item + "/"`. -/
def uploadWalk : List FsEntry → String → (String → Bool) → List (String × Bool)
  | [], _, _ => []
  | .file name :: rest, pfx, oracle =>
    (pfx ++ name, oracle (pfx ++ name)) :: uploadWalk rest pfx oracle
  | .dir name sub :: rest, pfx, oracle =>
    uploadWalk sub (addSlash (pfx ++ name)) oracle ++ uploadWalk rest pfx oracle

/-- `uploadToS3(directoryPath, bucketName, s3Prefix, region)` from
`dist/aws.js`: walks the directory tree and resolves with the list of
attempted uploads (object key, outcome).  Every per-file failure is
caught and logged inside the loop, so the promise resolves on every
input of the model. -/
def uploadToS3 (items : List FsEntry) (s3Pfx : String)
    (oracle : String → Bool) : Except String (List (String × Bool)) :=
  .ok (uploadWalk items (addSlash s3Pfx) oracle)

/-- The walk attempts the same files with the same keys whatever the
per-file outcomes are; each file's own outcome is merely recorded. -/
theorem uploadWalk_oracle : ∀ (items : List FsEntry) (pfx : String) (oracle : String → Bool),
    uploadWalk items pfx oracle
      = (uploadWalk items pfx (fun _ => true)).map (fun r => (r.1, oracle r.1))
  | [], _, _ => by simp [uploadWalk]
  | .file name :: rest, pfx, oracle => by
    simp [uploadWalk, uploadWalk_oracle rest pfx oracle]
  | .dir name sub :: rest, pfx, oracle => by
    simp only [uploadWalk, List.map_append]
    rw [uploadWalk_oracle sub (addSlash (pfx ++ name)) oracle,
      uploadWalk_oracle rest pfx oracle]

/-- C7: for every asset tree, `uploadToS3` resolves (a per-file upload
failure is never propagated), the attempted uploads are exactly those
of an all-successes run — so the walk continues over the remaining
files after any failure — and a failed file merely appears in the
record with its own outcome. -/
theorem uploadToS3_best_effort (items : List FsEntry) (s3Pfx : String)
    (oracle : String → Bool) :
    uploadToS3 items s3Pfx oracle = .ok (uploadWalk items (addSlash s3Pfx) oracle) ∧
    (uploadWalk items (addSlash s3Pfx) oracle).map Prod.fst
      = (uploadWalk items (addSlash s3Pfx) (fun _ => true)).map Prod.fst ∧
    uploadWalk items (addSlash s3Pfx) oracle
      = (uploadWalk items (addSlash s3Pfx) (fun _ => true)).map (fun r => (r.1, oracle r.1)) := by
  refine ⟨rfl, ?_, uploadWalk_oracle items (addSlash s3Pfx) oracle⟩
  rw [uploadWalk_oracle items (addSlash s3Pfx) oracle]
  simp

/-- A JavaScript value of the shapes `deepMerge` is applied to in this
package: a string, a plain object (fields in insertion order), or
`undefined`. -/
inductive JValue where
  | str (s : String) : JValue
  | obj (fields : List (String × JValue)) : JValue
  | jsUndefined : JValue

/-- The `isObject` helper inside `deepMerge`:
`obj && typeof obj === 'object'`. -/
def isObject : JValue → Bool
  | .obj _ => true
  | _ => false

/-- JavaScript truthiness on the modelled values: a string is truthy
iff non-empty, an object is truthy, `undefined` is falsy. -/
def truthy : JValue → Bool
  | .str s => s != ""
  | .obj _ => true
  | .jsUndefined => false

/-- Property read `target[key]`: the first field with that key, or
`undefined`. -/
def getKey (fields : List (String × JValue)) (k : String) : JValue :=
  match fields.find? (fun p => p.1 == k) with
  | some p => p.2
  | none => .jsUndefined

/-- Property write `target[key] = v`: updates the field in place (at
its position) or appends a new one. -/
def setKey : List (String × JValue) → String → JValue → List (String × JValue)
  | [], k, v => [(k, v)]
  | (k1, v1) :: rest, k, v =>
    if k1 == k then (k1, v) :: rest else (k1, v1) :: setKey rest k v

mutual

/-- The per-key update of the `deepMerge` loop: the new value stored
at a key given the current target value and the source value.  When
both are objects the field becomes the recursive merge of their field
lists (`deepMerge(Object.assign({}, targetValue), sourceValue)` — the
clone makes the nested merge value-like); otherwise it becomes the
source value when truthy (`sourceValue ? sourceValue : targetValue`)
and the target value when not. -/
def mergeValue : JValue → JValue → JValue
  | tv, .obj sf =>
    match tv with
    | .obj tf => .obj (mergeFields tf sf)
    | _ => .obj sf
  | tv, .str s => if truthy (.str s) then .str s else tv
  | tv, .jsUndefined => tv

/-- The `Object.keys(source).forEach` loop of `deepMerge`
(`src/index.ts`, lines 223-232), threading the mutated target through
the per-key assignments `target[key] = ...` in source-key order. -/
def mergeFields : List (String × JValue) → List (String × JValue) → List (String × JValue)
  | target, [] => target
  | target, (k, sourceValue) :: rest =>
    mergeFields (setKey target k (mergeValue (getKey target k) sourceValue)) rest

end

/-- `deepMerge(target, source)` from `src/index.ts`: throws unless
both arguments are objects, then merges the source's fields into the
target and returns the target. -/
def deepMerge (target source : JValue) : Except String JValue :=
  match target, source with
  | .obj tf, .obj sf => .ok (.obj (mergeFields tf sf))
  | _, _ => .error "Invalid arguments: Both target and source must be objects"

/-- The module-level `defaultConfig` of `src/index.ts`: the baked-in
defaults, with empty strings for the bucket name, key root, function
name and distribution id. -/
def defaultConfig : JValue :=
  .obj [("s3", .obj [("bucketName", .str ""), ("prefix", .str ""),
          ("region", .str "ap-south-1")]),
        ("lambda", .obj [("functionName", .str ""), ("region", .str "us-east-1")]),
        ("cloudfront", .obj [("distributionId", .str ""), ("region", .str "us-east-1")])]

/-- A user-supplied `AWSConfiguration` value with the given seven leaf
strings, in the interface's field order. -/
def mkUserConfig (bucketName pfx s3Region functionName lambdaRegion
    distributionId cfRegion : String) : JValue :=
  .obj [("s3", .obj [("bucketName", .str bucketName), ("prefix", .str pfx),
          ("region", .str s3Region)]),
        ("lambda", .obj [("functionName", .str functionName),
          ("region", .str lambdaRegion)]),
        ("cloudfront", .obj [("distributionId", .str distributionId),
          ("region", .str cfRegion)])]

/-- The field list of an object value (empty for non-objects). -/
def fieldsOf : JValue → List (String × JValue)
  | .obj f => f
  | _ => []

/-- The leaf at `config[k1][k2]`. -/
def getLeaf (v : JValue) (k1 k2 : String) : JValue :=
  getKey (fieldsOf (getKey (fieldsOf v) k1)) k2

/-- C8 counterexample: merging a user configuration whose bucket name
is the empty string over the baked-in defaults yields an *empty*
bucket-name leaf — the baked-in default for the bucket name is itself
the empty string, so the merge does not make every leaf non-empty. -/
theorem deepMerge_empty_leaf_counterexample :
    (deepMerge defaultConfig
        (mkUserConfig "" "assets" "eu-west-1" "fn" "us-east-1" "DIST" "us-east-1")).map
      (fun m => getLeaf m "s3" "bucketName") = .ok (.str "") := by
  simp [deepMerge, mergeFields, mergeValue, getKey, setKey, truthy, isObject,
    defaultConfig, mkUserConfig, getLeaf, fieldsOf, Except.map, List.find?]

/-- C8 amended: each merged leaf is the user's value when that value
is non-empty and the baked-in default otherwise (a non-empty user leaf
wins, an empty user leaf falls back to the default).  The three region
leaves are therefore always non-empty, because their defaults are; the
bucket name, key root, function name and distribution id default to
the empty string, so they stay empty when the user leaves them
empty. -/
theorem deepMerge_defaults_asymmetric (b p r f lr d cr : String) :
    deepMerge defaultConfig (mkUserConfig b p r f lr d cr)
      = .ok (.obj
          [("s3", .obj [("bucketName", if b != "" then JValue.str b else .str ""),
                        ("prefix", if p != "" then JValue.str p else .str ""),
                        ("region", if r != "" then JValue.str r else .str "ap-south-1")]),
           ("lambda", .obj [("functionName", if f != "" then JValue.str f else .str ""),
                            ("region", if lr != "" then JValue.str lr else .str "us-east-1")]),
           ("cloudfront", .obj [("distributionId", if d != "" then JValue.str d else .str ""),
                                ("region", if cr != "" then JValue.str cr else .str "us-east-1")])]) ∧
    (if r != "" then JValue.str r else .str "ap-south-1") ≠ JValue.str "" ∧
    (if lr != "" then JValue.str lr else .str "us-east-1") ≠ JValue.str "" ∧
    (if cr != "" then JValue.str cr else .str "us-east-1") ≠ JValue.str "" := by
  refine ⟨?_, ?_, ?_, ?_⟩
  · simp [deepMerge, mergeFields, mergeValue, getKey, setKey, truthy, isObject,
      defaultConfig, mkUserConfig, List.find?]
  · by_cases hr : r = "" <;> simp [hr]
  · by_cases hr : lr = "" <;> simp [hr]
  · by_cases hr : cr = "" <;> simp [hr]

/-- The user configuration of the first adapter invocation in the C10
run. -/
def run1Input : JValue := mkUserConfig "bucket-one" "p1" "r1" "f1" "lr1" "d1" "cr1"

/-- The user configuration of the second adapter invocation in the C10
run: every leaf empty. -/
def run2Input : JValue := mkUserConfig "" "" "" "" "" "" ""

/-- The module-level `defaultConfig` after the first adapter
invocation.  `deepMerge` assigns each merged section into its target
argument (`target[key] = ...`) and returns that same target, and
`adapt` (`src/index.ts`, line 162) passes the module-level
`defaultConfig` as the target, so after one call the module constant
holds the merge result. -/
def moduleState1 : JValue :=
  match deepMerge defaultConfig run1Input with
  | .ok m => m
  | .error _ => .jsUndefined

/-- C10: the first invocation's merge is what the module-level
`defaultConfig` holds afterwards, and a second invocation that leaves
the bucket name empty then resolves it to the *first* invocation's
`bucket-one` — merging over the previous invocation's configuration —
whereas merging over the original baked-in defaults would resolve it
to the empty string. -/
theorem deepMerge_mutates_defaultConfig_across_runs :
    deepMerge defaultConfig run1Input = .ok moduleState1 ∧
    (deepMerge moduleState1 run2Input).map (fun m => getLeaf m "s3" "bucketName")
      = .ok (.str "bucket-one") ∧
    (deepMerge defaultConfig run2Input).map (fun m => getLeaf m "s3" "bucketName")
      = .ok (.str "") ∧
    JValue.str "bucket-one" ≠ JValue.str "" := by
  refine ⟨?_, ?_, ?_, by simp⟩ <;>
    simp [deepMerge, mergeFields, mergeValue, getKey, setKey, truthy, isObject,
      defaultConfig, mkUserConfig, getLeaf, fieldsOf, Except.map, List.find?,
      moduleState1, run1Input, run2Input]

end SvelteAws
